import Mathlib

/-!
Verification of the privilege-aware path/socket resolution core of
`internal/constants.go` (NordVPN Linux client).

The Go functions `GetSupportedIPTables`, `GetFilesharedSocket`,
`GetFilesharedConfigDirPath`, `GetFilesharedLogPath` and `GetNordvpnGid`
are embedded shallowly: every OS observation the code makes (a `stat`
probe, a user lookup by id, a group lookup by name) is read from an
explicit `OSState`, and the functions become pure Lean functions of the
state and their arguments.  `filepath.Join` is embedded together with the
`Clean` normalisation Go applies to its result, since the cleaning is
observable in the returned strings.

A Go runtime panic (the nil-pointer dereference reachable in
`GetFilesharedLogPath`) is modelled as the `none` result of an `Option`.
-/

deriving instance DecidableEq for Except

namespace Constants

/-! ### Constants from the source -/

/-- RunDir defines default socket directory. -/
def RunDir : String := "/run/nordvpn/"

/-- LogPath defines where logs are located if systemd is not used. -/
def LogPath : String := "/var/log/nordvpn/"

/-- NordvpnGroup that can access daemon socket. -/
def NordvpnGroup : String := "nordvpn"

/-- DaemonSocket defines system daemon socket file location. -/
def DaemonSocket : String := RunDir ++ "nordvpnd.sock"

/-- Fileshared defines filesharing daemon name. -/
def Fileshared : String := "nordfileshared"

/-- ConfigDirectory is used for configuration files storage. -/
def ConfigDirectory : String := ".config"

/-- UserDataPath defines path where user data is stored. -/
def UserDataPath : String := "nordvpn/"

/-! ### Embedding of Go `path/filepath` (unix rules)

`filepath.Join` joins the non-empty elements with slashes and Cleans the
result; `Clean` removes duplicate slashes and `.` elements, resolves `..`
elements against preceding non-`..` elements, and drops `..` at the root
of a rooted path, returning `.` for an empty cleaned relative path. -/

/-- Split a character list on the slash separator (the components of a
path, as `strings.Split` on "/"). -/
def splitSlash : List Char → List (List Char)
  | [] => [[]]
  | c :: rest =>
    match splitSlash rest with
    | s :: ss => if c = '/' then [] :: s :: ss else (c :: s) :: ss
    | [] => [[c]]

/-- Join components with the slash separator. -/
def joinSlash : List (List Char) → List Char
  | [] => []
  | [s] => s
  | s :: rest => s ++ '/' :: joinSlash rest

/-- Whether a path begins with a slash. -/
def isRooted : List Char → Bool
  | '/' :: _ => true
  | _ => false

/-- One step of Clean's element processing: the accumulator holds the
cleaned components in reverse order. -/
def cleanStep (rooted : Bool) (stack : List (List Char)) (c : List Char) :
    List (List Char) :=
  if c = [] ∨ c = ['.'] then stack
  else if c = ['.', '.'] then
    match stack with
    | [] => if rooted then [] else [['.', '.']]
    | top :: rest => if top = ['.', '.'] then ['.', '.'] :: top :: rest else rest
  else c :: stack

/-- Go `filepath.Clean` for unix paths: collapses duplicate slashes,
drops `.` elements, resolves `..` against preceding elements and against
the root, returning `.` for an empty cleaned relative path. -/
def filepathClean (path : String) : String :=
  if path = "" then "."
  else
    let cs := path.toList
    let rooted := isRooted cs
    let comps := ((splitSlash cs).foldl (cleanStep rooted) []).reverse
    let out := joinSlash comps
    if rooted then
      String.mk ('/' :: out)
    else
      if out = [] then "." else String.mk out

/-- Go `filepath.Join`: empty elements are ignored; if all elements are
empty the result is the empty string; otherwise the slash-joined string
is Cleaned. -/
def filepathJoin (elems : List String) : String :=
  let nonEmpty := elems.filter (fun e => e ≠ "")
  if nonEmpty = [] then ""
  else filepathClean (String.mk (joinSlash (nonEmpty.map String.toList)))

/-! ### The observable OS state -/

/-- Outcome of an `os.Stat` call: success, an error satisfying
`os.IsNotExist`, or any other error (e.g. a permission error). -/
inductive StatResult where
  | ok : StatResult
  | notExist : StatResult
  | otherError : StatResult
deriving DecidableEq, Repr

/-- The `os/user.User` fields the code reads. -/
structure User where
  homeDir : String
deriving DecidableEq, Repr

/-- The `os/user.Group` fields the code reads. -/
structure Group where
  gid : String
deriving DecidableEq, Repr

/-- The observable OS state the resolution core consults: the result of
stat-probing each path, the existence of each directory (what a stat
outcome reports about, used only to state claims), and the user and
group databases. -/
structure OSState where
  stat : String → StatResult
  dirExists : String → Bool
  lookupId : String → Option User
  lookupGroup : String → Option Group

/-- A stat probe faithfully reports about existence: success implies the
directory exists, and a not-exist error implies it does not.  An
abnormal error (`otherError`) leaves existence unconstrained. -/
def StatFaithful (st : OSState) : Prop :=
  ∀ p, (st.stat p = .ok → st.dirExists p = true) ∧
       (st.stat p = .notExist → st.dirExists p = false)

/-! ### Embedded operations -/

/-- Process-wide capability flags `PlatformSupportsIPv4` and
`PlatformSupportsIPv6`, both initialised to `true`. -/
structure PlatformFlags where
  PlatformSupportsIPv4 : Bool
  PlatformSupportsIPv6 : Bool
deriving DecidableEq, Repr

/-- Initial values of the capability flags. -/
def platformFlagsInit : PlatformFlags := ⟨true, true⟩

/-- Go `GetSupportedIPTables`: appends "iptables" when the IPv4 flag is
set, then "ip6tables" when the IPv6 flag is set. -/
def GetSupportedIPTables (f : PlatformFlags) : List String :=
  let iptables : List String := []
  let iptables := if f.PlatformSupportsIPv4 then iptables ++ ["iptables"] else iptables
  let iptables := if f.PlatformSupportsIPv6 then iptables ++ ["ip6tables"] else iptables
  iptables

/-- The string `fmt.Sprintf("/run/user/%d", uid)`. -/
def runUserDir (uid : Int) : String := "/run/user/" ++ toString uid

/-- Go `GetFilesharedSocket`: stats `/run/user/<uid>`; for uid 0 or when
the stat error satisfies `os.IsNotExist` it returns the system-wide
socket path, otherwise the per-user one. -/
def GetFilesharedSocket (st : OSState) (uid : Int) : String :=
  let err := st.stat (runUserDir uid)
  if uid = 0 ∨ err = .notExist then
    "/run/" ++ Fileshared ++ "/" ++ Fileshared ++ ".sock"
  else
    "/run/user/" ++ toString uid ++ "/" ++ Fileshared ++ "/" ++ Fileshared ++ ".sock"

/-- The system-wide fileshared socket path. -/
def systemFilesharedSocket : String :=
  "/run/" ++ Fileshared ++ "/" ++ Fileshared ++ ".sock"

/-- The per-user fileshared socket path. -/
def perUserFilesharedSocket (uid : Int) : String :=
  "/run/user/" ++ toString uid ++ "/" ++ Fileshared ++ "/" ++ Fileshared ++ ".sock"

/-- Error returned by `GetFilesharedConfigDirPath` for an empty home. -/
def errNoHome : String := "user does not have a home directory"

/-- Error returned by `GetFilesharedConfigDirPath` when the candidate
directory cannot be statted successfully. -/
def errConfigNotFound : String :=
  ConfigDirectory ++ " directory not found in users home directory"

/-- Go `GetFilesharedConfigDirPath`: rejects an empty home directory,
otherwise joins `<home>/.config/nordvpn/`, stats it, and returns the
joined path exactly when the stat succeeded. -/
def GetFilesharedConfigDirPath (st : OSState) (homeDirectory : String) :
    Except String String :=
  if homeDirectory = "" then
    .error errNoHome
  else
    let userConfigPath := filepathJoin [homeDirectory, ConfigDirectory, UserDataPath]
    if st.stat userConfigPath = .ok then
      .ok userConfigPath
    else
      .error errConfigNotFound

/-- Go `GetFilesharedLogPath`.  For uid "0" it returns the fixed system
log path.  Otherwise it looks the user up by id; on lookup failure the Go
code logs a warning but then dereferences the nil `usr` pointer
(`usr.HomeDir`), a runtime panic modelled here as `none`.  On lookup
success it resolves the user's config directory, falling back to the
uid-suffixed system log path when that fails. -/
def GetFilesharedLogPath (st : OSState) (uid : String) : Option String :=
  let filesharedLogFilename := Fileshared ++ ".log"
  if uid = "0" then
    some (filepathJoin [LogPath, filesharedLogFilename])
  else
    match st.lookupId uid with
    | none => none
    | some usr =>
      match GetFilesharedConfigDirPath st usr.homeDir with
      | .error _ => some (filepathJoin [LogPath, Fileshared ++ "-" ++ uid ++ ".log"])
      | .ok configDir => some (filepathJoin [configDir, filesharedLogFilename])

/-- Decimal digit value. -/
def digitVal (c : Char) : Option Nat :=
  if '0' ≤ c ∧ c ≤ '9' then some (c.toNat - '0'.toNat) else none

/-- Accumulate decimal digits; fails on any non-digit. -/
def parseDigitsAux : List Char → Nat → Option Nat
  | [], acc => some acc
  | c :: rest, acc =>
    match digitVal c with
    | none => none
    | some d => parseDigitsAux rest (acc * 10 + d)

/-- Go `strconv.Atoi`: an optional sign followed by at least one decimal
digit, with the 64-bit int range check; syntax or range violations yield
an error. -/
def Atoi (s : String) : Except String Int :=
  let cs := s.toList
  let signDigits : Bool × List Char :=
    match cs with
    | '+' :: rest => (false, rest)
    | '-' :: rest => (true, rest)
    | _ => (false, cs)
  match signDigits.2 with
  | [] => .error ("strconv.Atoi: parsing " ++ s ++ ": invalid syntax")
  | _ =>
    match parseDigitsAux signDigits.2 0 with
    | none => .error ("strconv.Atoi: parsing " ++ s ++ ": invalid syntax")
    | some n =>
      let v : Int := if signDigits.1 then -(n : Int) else (n : Int)
      if v < -(2 ^ 63) ∨ (2 ^ 63 - 1 : Int) < v then
        .error ("strconv.Atoi: parsing " ++ s ++ ": value out of range")
      else
        .ok v

/-- The error string of Go `user.UnknownGroupError`. -/
def errUnknownGroup : String := "group: unknown group " ++ NordvpnGroup

/-- Go `GetNordvpnGid`: looks up the `nordvpn` group and parses its gid
with `strconv.Atoi`; a lookup failure is surfaced unchanged. -/
def GetNordvpnGid (st : OSState) : Except String Int :=
  match st.lookupGroup NordvpnGroup with
  | none => .error errUnknownGroup
  | some group => Atoi group.gid

/-! ### Concrete states used by counterexamples and witnesses -/

/-- A state in which nothing exists and no lookup succeeds. -/
def emptyState : OSState :=
  { stat := fun _ => .notExist
    dirExists := fun _ => false
    lookupId := fun _ => none
    lookupGroup := fun _ => none }

/-- A state whose stat probe of `/run/user/1000` fails with an abnormal
(e.g. permission) error; the directory does not exist. -/
def statErrState : OSState :=
  { emptyState with
    stat := fun p => if p = "/run/user/1000" then .otherError else .notExist }

/-- A state in which uid "1001" resolves to a user whose home directory
is `/home/alice`, but no filesystem paths exist. -/
def aliceState : OSState :=
  { emptyState with
    lookupId := fun u => if u = "1001" then some ⟨"/home/alice"⟩ else none }

/-- A state in which `/home/u/.config/nordvpn` exists. -/
def homeOkState : OSState :=
  { emptyState with
    stat := fun p => if p = "/home/u/.config/nordvpn" then .ok else .notExist }

/-- A state in which the nordvpn group exists with gid "1003". -/
def groupState : OSState :=
  { emptyState with
    lookupGroup := fun g => if g = NordvpnGroup then some ⟨"1003"⟩ else none }

/-- The stat probe of `statErrState` reports faithfully: it never
answers `ok` and its not-exist answers match `dirExists`. -/
theorem statErrState_faithful : StatFaithful statErrState := by
  intro p
  refine ⟨fun h => ?_, fun _ => rfl⟩
  by_cases hp : p = "/run/user/1000" <;>
    simp [statErrState, emptyState, hp] at h

end Constants

example : Constants.filepathJoin ["/var/log/nordvpn/", "nordfileshared.log"] =
    "/var/log/nordvpn/nordfileshared.log" := by decide

example : Constants.filepathJoin ["/home/u", ".config", "nordvpn/"] =
    "/home/u/.config/nordvpn" := by decide

example : Constants.GetFilesharedSocket Constants.statErrState 1000 =
    "/run/user/1000/nordfileshared/nordfileshared.sock" := by decide

open Constants

/-! ### Claim theorems -/

/-- Claim C1 (code bug): the spec promises that `GetFilesharedLogPath`
never fails outright even when the user-record lookup fails, but in the
code a failed lookup leaves `usr` nil and the subsequent `usr.HomeDir`
dereference panics: at uid "1000" with no matching user record the
operation does not complete with a fallback path (`none` models the
panic). -/
theorem fileshared_log_lookup_failure_panics :
    GetFilesharedLogPath emptyState "1000" = none := by decide

/-- Claim C2 counterexample: for uid 1000 with an abnormal
(permission-style) stat error on `/run/user/1000`, `GetFilesharedSocket`
returns the per-user socket path, not the system-wide
`/run/nordfileshared/nordfileshared.sock` the claim requires for any
stat error whatsoever. -/
theorem fileshared_socket_other_error_counterexample :
    statErrState.stat "/run/user/1000" = StatResult.otherError ∧
      GetFilesharedSocket statErrState 1000 =
        "/run/user/1000/nordfileshared/nordfileshared.sock" ∧
      GetFilesharedSocket statErrState 1000 ≠
        "/run/nordfileshared/nordfileshared.sock" := by decide

/-- Claim C2 amended: for nonzero uid, only a stat error satisfying
`os.IsNotExist` triggers the system-wide fallback; any other stat error
yields the per-user path. In neither case is the error propagated: the
function totally returns a socket path string. -/
theorem fileshared_socket_error_fallback_amended (st : OSState) (uid : Int)
    (huid : uid ≠ 0) :
    (st.stat (runUserDir uid) = .otherError →
        GetFilesharedSocket st uid = perUserFilesharedSocket uid) ∧
      (st.stat (runUserDir uid) = .notExist →
        GetFilesharedSocket st uid = systemFilesharedSocket) := by
  constructor <;> intro h <;>
    simp [GetFilesharedSocket, perUserFilesharedSocket, systemFilesharedSocket,
      h, huid]

/-- Claim C2 amended, witness at uid 1000 under a permission-style stat
error. -/
theorem fileshared_socket_error_fallback_amended_witness :
    GetFilesharedSocket statErrState 1000 = perUserFilesharedSocket 1000 :=
  (fileshared_socket_error_fallback_amended statErrState 1000 (by decide)).1
    (by decide)

/-- Claim C3 counterexample: in a faithfully reporting state where
`/run/user/1000` does not exist but its stat probe fails abnormally,
`GetFilesharedSocket` for uid 1000 returns the per-user path rather than
the system-wide path, refuting "per-user if and only if the runtime
directory exists, system-wide otherwise". -/
theorem fileshared_socket_exists_iff_counterexample :
    StatFaithful statErrState ∧
      statErrState.dirExists "/run/user/1000" = false ∧
      GetFilesharedSocket statErrState 1000 ≠ systemFilesharedSocket ∧
      GetFilesharedSocket statErrState 1000 = perUserFilesharedSocket 1000 :=
  ⟨statErrState_faithful, rfl, by decide, by decide⟩

/-- Claim C3 amended: for uid 0 the socket is always the system-wide
path; for nonzero uid the code decides on the stat result alone — a
not-exist report gives the system-wide path, any other stat outcome
(success, or an abnormal error even when the directory does not exist)
gives the per-user path; in particular, in a faithful state an existing
runtime directory still implies the per-user path. -/
theorem fileshared_socket_characterization_amended (st : OSState) (uid : Int) :
    (uid = 0 → GetFilesharedSocket st uid = systemFilesharedSocket) ∧
      (uid ≠ 0 → st.stat (runUserDir uid) = .notExist →
        GetFilesharedSocket st uid = systemFilesharedSocket) ∧
      (uid ≠ 0 → st.stat (runUserDir uid) ≠ .notExist →
        GetFilesharedSocket st uid = perUserFilesharedSocket uid) ∧
      (uid ≠ 0 → StatFaithful st → st.dirExists (runUserDir uid) = true →
        GetFilesharedSocket st uid = perUserFilesharedSocket uid) := by
  refine ⟨?_, ?_, ?_, ?_⟩
  · intro h
    simp [GetFilesharedSocket, systemFilesharedSocket, h]
  · intro h hn
    simp [GetFilesharedSocket, systemFilesharedSocket, h, hn]
  · intro h hn
    simp [GetFilesharedSocket, perUserFilesharedSocket, h, hn]
  · intro h hf he
    have hn : st.stat (runUserDir uid) ≠ .notExist := by
      intro hx
      have hfalse := (hf (runUserDir uid)).2 hx
      rw [he] at hfalse
      exact Bool.noConfusion hfalse
    simp [GetFilesharedSocket, perUserFilesharedSocket, h, hn]

/-- Claim C3 amended, witness: with no runtime directory for uid 1000
the socket falls back to the system-wide path. -/
theorem fileshared_socket_characterization_amended_witness :
    GetFilesharedSocket emptyState 1000 = systemFilesharedSocket :=
  (fileshared_socket_characterization_amended emptyState 1000).2.1
    (by decide) rfl

/-- Claim C4 (code bug): a config-directory failure for the known uid
"1001" produces the fallback `/var/log/nordvpn/nordfileshared-1001.log`,
but an identity-lookup failure for the same uid does not produce the
same fallback shape: the nil `usr` dereference panics (`none`). -/
theorem fileshared_log_fallback_shape_divergence :
    GetFilesharedLogPath aliceState "1001" =
        some "/var/log/nordvpn/nordfileshared-1001.log" ∧
      GetFilesharedLogPath emptyState "1001" = none := by decide

/-- Claim C5 counterexample: when `/home/u/.config/nordvpn` exists, the
resolved config directory is `/home/u/.config/nordvpn` — `filepath.Join`
cleans the trailing slash away — and not the claimed exact string
`/home/u/.config/nordvpn/`. -/
theorem config_dir_trailing_slash_counterexample :
    GetFilesharedConfigDirPath homeOkState "/home/u" =
        Except.ok "/home/u/.config/nordvpn" ∧
      GetFilesharedConfigDirPath homeOkState "/home/u" ≠
        Except.ok "/home/u/.config/nordvpn/" := by decide

/-- Claim C5 amended: the empty home directory fails with the
invalid-input error; for a non-empty home the function returns the
Join-cleaned candidate `filepathJoin [home, ".config", "nordvpn/"]`
(no trailing slash, e.g. `/home/u/.config/nordvpn`) exactly when the
stat of that candidate succeeds, and fails with the not-found error
otherwise, never fabricating an unverified path. -/
theorem config_dir_resolution_amended (st : OSState) (home : String) :
    (home = "" → GetFilesharedConfigDirPath st home = .error errNoHome) ∧
      (home ≠ "" →
        (st.stat (filepathJoin [home, ConfigDirectory, UserDataPath]) = .ok →
          GetFilesharedConfigDirPath st home =
            .ok (filepathJoin [home, ConfigDirectory, UserDataPath])) ∧
        (st.stat (filepathJoin [home, ConfigDirectory, UserDataPath]) ≠ .ok →
          GetFilesharedConfigDirPath st home = .error errConfigNotFound)) := by
  refine ⟨fun h => ?_, fun hne => ⟨fun hs => ?_, fun hs => ?_⟩⟩
  · simp [GetFilesharedConfigDirPath, h]
  · simp [GetFilesharedConfigDirPath, hne, hs]
  · simp [GetFilesharedConfigDirPath, hne, hs]

/-- Claim C5 amended, witness: with `/home/u/.config/nordvpn` existing,
resolution for home `/home/u` succeeds with the cleaned path. -/
theorem config_dir_resolution_amended_witness :
    GetFilesharedConfigDirPath homeOkState "/home/u" =
      .ok (filepathJoin ["/home/u", ConfigDirectory, UserDataPath]) :=
  ((config_dir_resolution_amended homeOkState "/home/u").2 (by decide)).1
    (by decide)

/-- Claim C6: `GetFilesharedLogPath` applied to the uid string "0"
returns exactly `/var/log/nordvpn/nordfileshared.log`, regardless of the
OS state (no lookup or stat is consulted on this branch). -/
theorem fileshared_log_root_fixed_path (st : OSState) :
    GetFilesharedLogPath st "0" =
      some "/var/log/nordvpn/nordfileshared.log" := rfl

/-- Claim C7: `GetNordvpnGid` fails with the unknown-group error when
the nordvpn group is absent from the group database, and never silently
returns a zero or default id: whenever the result carries no error, the
group was found and the returned integer is the successful
`strconv.Atoi` parse of that group's gid field. -/
theorem nordvpn_gid_no_silent_default (st : OSState) :
    (st.lookupGroup NordvpnGroup = none →
        GetNordvpnGid st = .error errUnknownGroup) ∧
      ∀ n : Int, GetNordvpnGid st = .ok n →
        ∃ g, st.lookupGroup NordvpnGroup = some g ∧ Atoi g.gid = .ok n := by
  constructor
  · intro h
    simp [GetNordvpnGid, h]
  · intro n h
    unfold GetNordvpnGid at h
    cases hg : st.lookupGroup NordvpnGroup with
    | none => rw [hg] at h; simp at h
    | some g => rw [hg] at h; exact ⟨g, rfl, h⟩

/-- Claim C7 witness: with no nordvpn group in the database the lookup
error is surfaced. -/
theorem nordvpn_gid_no_silent_default_witness :
    GetNordvpnGid emptyState = .error errUnknownGroup :=
  (nordvpn_gid_no_silent_default emptyState).1 rfl

/-- Claim C8 counterexample: with the IPv4 capability flag cleared and
the IPv6 flag set, `GetSupportedIPTables` is `["ip6tables"]` and does
not include "iptables", refuting "always includes iptables for every
state of the flags". -/
theorem supported_iptables_ipv4_counterexample :
    GetSupportedIPTables ⟨false, true⟩ = ["ip6tables"] ∧
      "iptables" ∉ GetSupportedIPTables ⟨false, true⟩ := by decide

/-- Claim C8 amended: "iptables" is in the enumeration exactly when the
IPv4 flag is set (the flag is initialised to true, so it is present
initially), "ip6tables" exactly when the IPv6 flag is set, and whenever
both flags are set the sequence is exactly `["iptables", "ip6tables"]`,
IPv4 first. -/
theorem supported_iptables_amended (f : PlatformFlags) :
    ("iptables" ∈ GetSupportedIPTables f ↔ f.PlatformSupportsIPv4 = true) ∧
      ("ip6tables" ∈ GetSupportedIPTables f ↔ f.PlatformSupportsIPv6 = true) ∧
      (f.PlatformSupportsIPv4 = true → f.PlatformSupportsIPv6 = true →
        GetSupportedIPTables f = ["iptables", "ip6tables"]) ∧
      GetSupportedIPTables platformFlagsInit = ["iptables", "ip6tables"] := by
  obtain ⟨v4, v6⟩ := f
  cases v4 <;> cases v6 <;> decide

/-- Claim C8 amended, witness at the initial flag values. -/
theorem supported_iptables_amended_witness :
    GetSupportedIPTables ⟨true, true⟩ = ["iptables", "ip6tables"] :=
  (supported_iptables_amended ⟨true, true⟩).2.2.1 rfl rfl

/-- Claim C9: each resolution operation is a deterministic function of
its inputs and of the OS observations it makes: two states agreeing on
the stat probe of `/run/user/<uid>` yield the same socket; agreeing on
the stat of the candidate config directory yield the same config-dir
result; agreeing on the uid's user record and on all stat probes yield
the same log target; agreeing on the nordvpn group record yield the
same gid result. -/
theorem resolution_deterministic (st1 st2 : OSState) :
    (∀ uid : Int,
        st1.stat (runUserDir uid) = st2.stat (runUserDir uid) →
        GetFilesharedSocket st1 uid = GetFilesharedSocket st2 uid) ∧
      (∀ home : String,
        st1.stat (filepathJoin [home, ConfigDirectory, UserDataPath]) =
            st2.stat (filepathJoin [home, ConfigDirectory, UserDataPath]) →
        GetFilesharedConfigDirPath st1 home = GetFilesharedConfigDirPath st2 home) ∧
      (∀ uid : String, st1.lookupId uid = st2.lookupId uid →
        st1.stat = st2.stat →
        GetFilesharedLogPath st1 uid = GetFilesharedLogPath st2 uid) ∧
      (st1.lookupGroup NordvpnGroup = st2.lookupGroup NordvpnGroup →
        GetNordvpnGid st1 = GetNordvpnGid st2) := by
  refine ⟨?_, ?_, ?_, ?_⟩
  · intro uid h
    simp only [GetFilesharedSocket, h]
  · intro home h
    simp only [GetFilesharedConfigDirPath, h]
  · intro uid h1 h2
    simp only [GetFilesharedLogPath, GetFilesharedConfigDirPath, h1, h2]
  · intro h
    simp only [GetNordvpnGid, h]

/-- Claim C9 witness: two states differing only in the group database
agree on the stat probes, hence resolve the same socket for uid 1000. -/
theorem resolution_deterministic_witness :
    GetFilesharedSocket emptyState 1000 = GetFilesharedSocket groupState 1000 :=
  (resolution_deterministic emptyState groupState).1 1000 rfl

/-- Claim C10: for a non-empty home directory, any stat outcome other
than success on the candidate config directory — absence or an abnormal
error such as a permission failure — produces the same not-found error,
and a nil error is returned only when the stat of the returned path
succeeded. -/
theorem config_dir_stat_error_uniform (st : OSState) (home : String)
    (hne : home ≠ "") :
    (st.stat (filepathJoin [home, ConfigDirectory, UserDataPath]) ≠ .ok →
        GetFilesharedConfigDirPath st home = .error errConfigNotFound) ∧
      ∀ p, GetFilesharedConfigDirPath st home = .ok p → st.stat p = .ok := by
  constructor
  · intro h
    simp [GetFilesharedConfigDirPath, hne, h]
  · intro p h
    simp only [GetFilesharedConfigDirPath, if_neg hne] at h
    split at h
    · next hs =>
      injection h with h2
      rw [← h2]
      exact hs
    · simp at h

/-- Claim C10 witness: a permission-style stat error on the candidate
directory yields the same not-found error as absence. -/
theorem config_dir_stat_error_uniform_witness :
    GetFilesharedConfigDirPath statErrState "/home/u" =
      .error errConfigNotFound :=
  (config_dir_stat_error_uniform statErrState "/home/u" (by decide)).1
    (by decide)
